import Mathlib

set_option maxRecDepth 8000

/-!
Verification development for the regression-reproduction harness
(`src/main.rs`): a batch driver that, for each issue record parsed from a
CSV table, checks out a source revision, resets the build cache, and runs a
simulation workload `RUNS_PER_ISSUE` times, persisting each run's captured
stdout, stderr and exit code under `results/<issue_id>/run_<i>/`.

The shallow embedding below translates the Rust source into pure Lean
functions.  Effects are made explicit:

* the filesystem is a state value `FS` (a list of created directories and a
  list of written files, newest first, so that a later write to the same
  path shadows an earlier one);
* the operating system's response to spawning and waiting on one child
  process is an oracle value `SpawnResult` (the spawned command string and
  the time limit influence the run only through this oracle, so they are
  not separate parameters of the model);
* the two external collaborators (`git checkout`, `cargo cache -a`) are
  oracle booleans in `IssueEnv`, and every collaborator invocation and
  supervised run is recorded in an `Event` trace;
* Rust byte buffers are `List Nat` (each element a byte), and Rust string
  operations used by the source (`str::split`, `str::trim`,
  `Read::read_to_string`, UTF-8 encoding of written text) are modelled by
  executable functions over `String.data` that follow the Rust semantics.
-/

namespace Experimentation

/-- Raw bytes, e.g. the content of a file or of a child's output stream. -/
abbrev Bytes := List Nat

/-- Unicode White_Space property, the character class trimmed by Rust's
`str::trim`. -/
def rustIsWhitespace (c : Char) : Bool :=
  ([0x09, 0x0A, 0x0B, 0x0C, 0x0D, 0x20, 0x85, 0xA0, 0x1680,
    0x2000, 0x2001, 0x2002, 0x2003, 0x2004, 0x2005, 0x2006, 0x2007,
    0x2008, 0x2009, 0x200A, 0x2028, 0x2029, 0x202F, 0x205F, 0x3000] :
    List Nat).contains c.toNat

/-- Rust `str::trim`: remove whitespace from both ends. -/
def rustTrim (s : String) : String :=
  ⟨((s.data.dropWhile rustIsWhitespace).reverse.dropWhile rustIsWhitespace).reverse⟩

/-- If `sep` is an initial segment of `l`, return the remainder of `l`
after it; otherwise `none`. -/
def dropSep? : List Char → List Char → Option (List Char)
  | [], l => some l
  | _ :: _, [] => none
  | s :: ss, c :: cs => if s = c then dropSep? ss cs else none

/-- Worker for `rustSplit`: scan `l` left to right, cutting at each
non-overlapping occurrence of `sep`; `acc` holds the current segment in
reverse.  `fuel` bounds the recursion (it is called with `fuel = l.length`
and a nonempty `sep`, so the fuel never runs out). -/
def splitFuel (sep : List Char) : Nat → List Char → List Char → List (List Char)
  | _, [], acc => [acc.reverse]
  | 0, l, acc => [acc.reverse ++ l]
  | fuel + 1, c :: cs, acc =>
    match dropSep? sep (c :: cs) with
    | some rest => acc.reverse :: splitFuel sep fuel rest []
    | none => splitFuel sep fuel cs (c :: acc)

/-- Rust `str::split` with a literal string pattern: split at every
non-overlapping occurrence of `sep`, keeping empty segments, always
yielding at least one segment. -/
def rustSplit (sep s : String) : List String :=
  (splitFuel sep.data s.data.length s.data []).map (fun l => ⟨l⟩)

/-- UTF-8 encoding of one Unicode scalar value. -/
def utf8Char (n : Nat) : Bytes :=
  if n < 0x80 then [n]
  else if n < 0x800 then [0xC0 + n / 0x40, 0x80 + n % 0x40]
  else if n < 0x10000 then
    [0xE0 + n / 0x1000, 0x80 + (n / 0x40) % 0x40, 0x80 + n % 0x40]
  else
    [0xF0 + n / 0x40000, 0x80 + (n / 0x1000) % 0x40,
     0x80 + (n / 0x40) % 0x40, 0x80 + n % 0x40]

/-- The UTF-8 bytes of a string: what Rust's `fs::write` puts on disk when
handed a `String` (or a `format!` result). -/
def utf8 (s : String) : Bytes :=
  s.data.flatMap (fun c => utf8Char c.toNat)

/-- Continuation byte of a UTF-8 sequence. -/
def utf8Cont (b : Nat) : Bool := 0x80 ≤ b && b ≤ 0xBF

/-- Whether a byte sequence is well-formed UTF-8 (as checked by Rust's
`str::from_utf8`, used internally by `Read::read_to_string`): rejects
overlong encodings, surrogates and scalar values above `0x10FFFF`. -/
def validUtf8 : Bytes → Bool
  | [] => true
  | b :: l =>
    if b ≤ 0x7F then validUtf8 l
    else if 0xC2 ≤ b && b ≤ 0xDF then
      match l with
      | c :: l₂ => utf8Cont c && validUtf8 l₂
      | [] => false
    else if b = 0xE0 then
      match l with
      | c :: d :: l₂ => (0xA0 ≤ c && c ≤ 0xBF) && utf8Cont d && validUtf8 l₂
      | _ => false
    else if (0xE1 ≤ b && b ≤ 0xEC) || b = 0xEE || b = 0xEF then
      match l with
      | c :: d :: l₂ => utf8Cont c && utf8Cont d && validUtf8 l₂
      | _ => false
    else if b = 0xED then
      match l with
      | c :: d :: l₂ => (0x80 ≤ c && c ≤ 0x9F) && utf8Cont d && validUtf8 l₂
      | _ => false
    else if b = 0xF0 then
      match l with
      | c :: d :: e :: l₂ =>
        (0x90 ≤ c && c ≤ 0xBF) && utf8Cont d && utf8Cont e && validUtf8 l₂
      | _ => false
    else if 0xF1 ≤ b && b ≤ 0xF3 then
      match l with
      | c :: d :: e :: l₂ => utf8Cont c && utf8Cont d && utf8Cont e && validUtf8 l₂
      | _ => false
    else if b = 0xF4 then
      match l with
      | c :: d :: e :: l₂ =>
        (0x80 ≤ c && c ≤ 0x8F) && utf8Cont d && utf8Cont e && validUtf8 l₂
      | _ => false
    else false

/-- Model of draining one pipe with `Read::read_to_string` into a fresh
`String`, the `io::Result` being discarded (`let _ = ...` in the source):
on valid UTF-8 the whole content is captured; on invalid UTF-8 the call
errors out and the buffer is left empty. -/
def readToStringBytes (b : Bytes) : Bytes :=
  if validUtf8 b then b else []

/-- The filesystem state: directories created so far and files written so
far.  `files` is newest-first, so a later write to the same path shadows an
earlier one (Rust's `fs::write` truncates and replaces).  Only the target
path of `create_dir_all` is tracked; implicit ancestor directories are not
distinguished by any observation in this development. -/
structure FS where
  dirs : List String
  files : List (String × Bytes)
deriving DecidableEq

/-- The empty filesystem. -/
def FS.empty : FS := ⟨[], []⟩

/-- Model of `fs::create_dir_all`. -/
def FS.createDirAll (fs : FS) (p : String) : FS :=
  { fs with dirs := p :: fs.dirs }

/-- Model of `fs::write`: create or truncate, then write the whole buffer. -/
def FS.write (fs : FS) (p : String) (b : Bytes) : FS :=
  { fs with files := (p, b) :: fs.files }

/-- First (most recent) entry for path `p` in a write list. -/
def lookupFile : List (String × Bytes) → String → Option Bytes
  | [], _ => none
  | e :: l, p => if e.1 = p then some e.2 else lookupFile l p

/-- Current content of the file at `p`, if it exists. -/
def FS.readFile (fs : FS) (p : String) : Option Bytes :=
  lookupFile fs.files p

/-- The outcome of the timed wait on a spawned child, mirroring the
`process_control` result the source matches on: `Ok(Some(status))` (with
`status.code()` an `Option<i32>`), `Ok(None)` (time limit hit, process
killed), or `Err(e)`. -/
inductive WaitResult where
  | exited (code : Option Int)
  | timedOut
  | waitErr (msg : String)
deriving DecidableEq

/-- The operating system's response to spawning one child for one run:
either the spawn itself fails, or a child runs, writes the given raw bytes
to its stdout and stderr pipes, and its timed wait resolves as `wait`. -/
inductive SpawnResult where
  | spawnErr (msg : String)
  | child (stdoutBytes stderrBytes : Bytes) (wait : WaitResult)
deriving DecidableEq

/-- Model of `run_simulation` from the source: create the run directory,
spawn the child (per the oracle `sr`), drain both pipes through
`read_to_string`, wait with a time limit, and write the artifacts.

* spawn failure: write `stderr.txt` = `error: <e>` and `exit_code.txt` =
  `-2`, and return (no `stdout.txt`);
* normal exit: write both captured buffers and the decimal exit code (or
  `-2` when the platform reports none);
* timeout: write both captured buffers and `-1 timed out`;
* wait failure: write `stderr.txt` = `error: <e>` and `exit_code.txt` =
  `-2` (no `stdout.txt`, the drained buffers are discarded). -/
def run_simulation (sr : SpawnResult) (output_dir : String) (fs : FS) : FS :=
  let fs := fs.createDirAll output_dir
  let stdout_path := output_dir ++ "/stdout.txt"
  let stderr_path := output_dir ++ "/stderr.txt"
  let exit_code_path := output_dir ++ "/exit_code.txt"
  match sr with
  | .spawnErr e =>
    (fs.write stderr_path (utf8 ("error: " ++ e))).write exit_code_path (utf8 "-2")
  | .child out err wait =>
    let stdout_data := readToStringBytes out
    let stderr_data := readToStringBytes err
    match wait with
    | .exited code =>
      ((fs.write stdout_path stdout_data).write stderr_path stderr_data).write
        exit_code_path (utf8 ((code.map toString).getD "-2"))
    | .timedOut =>
      ((fs.write stdout_path stdout_data).write stderr_path stderr_data).write
        exit_code_path (utf8 "-1 timed out")
    | .waitErr e =>
      (fs.write stderr_path (utf8 ("error: " ++ e))).write exit_code_path (utf8 "-2")

/-- One row of the issue table, mirroring `struct IssueRow`: `Issue`
(integer id), `Commit IDs` (optional), `Opts` (optional). -/
structure IssueRow where
  issue : Nat
  commit_ids : Option String
  opts : Option String
deriving DecidableEq

/-- Number of supervised runs per issue (`RUNS_PER_ISSUE` in the source). -/
def RUNS_PER_ISSUE : Nat := 100

/-- The revision the pipeline uses for an issue:
`commit_ids.as_ref().and_then(|s| s.split(", ").next().map(to_string))` —
the first segment of the `Commit IDs` field split on the literal
comma-space pattern. -/
def resolvedCommit (commit_ids : Option String) : Option String :=
  commit_ids.bind (fun s => (rustSplit ", " s).head?)

/-- The workload command line built for each run:
`format!("RUST_LOG=limbo_sim=debug cargo run --bin limbo_sim -- {}", opts)`. -/
def buildCmd (opts : String) : String :=
  "RUST_LOG=limbo_sim=debug cargo run --bin limbo_sim -- " ++ opts

/-- One observable external action of the pipeline: a `git checkout`
collaborator call, a `cargo cache -a` collaborator call, or one supervised
run of the workload command in a run directory. -/
inductive Event where
  | checkoutCall (rev : String)
  | cacheCall
  | simCall (cmd : String) (dir : String)
deriving DecidableEq

/-- Oracle for everything outside the process for one issue: whether the
checkout collaborator succeeds, whether the cache-reset collaborator
succeeds, and the spawn/wait behavior of the child of each run index. -/
structure IssueEnv where
  checkoutOk : Bool
  cacheOk : Bool
  runs : Nat → SpawnResult

/-- The run indices `1..=RUNS_PER_ISSUE` in order. -/
def runIdxs : List Nat := (List.range RUNS_PER_ISSUE).map (· + 1)

/-- The per-issue run loop: for each index `i` in `idxs`, supervise one run
in `issue_dir/run_<i>`, threading the filesystem and recording one
`simCall` event per run. -/
def runAll (env : IssueEnv) (issue_dir cmd : String) :
    List Nat → FS → FS × List Event
  | [], fs => (fs, [])
  | i :: rest, fs =>
    let run_dir := issue_dir ++ "/run_" ++ toString i
    let fs₁ := run_simulation (env.runs i) run_dir fs
    let p := runAll env issue_dir cmd rest fs₁
    (p.1, .simCall cmd run_dir :: p.2)

/-- The per-issue pipeline, mirroring one iteration of the record loop in
`main`: resolve the revision; skip when it is missing or trims to empty;
call the checkout collaborator and stop on failure; create
`results/<issue_id>/`; call the cache-reset collaborator and stop on
failure; write `commit.txt` (revision plus newline); then run the loop of
`RUNS_PER_ISSUE` supervised runs. -/
def processIssue (env : IssueEnv) (record : IssueRow) (fs : FS) : FS × List Event :=
  let opts := record.opts.getD ""
  match resolvedCommit record.commit_ids with
  | none => (fs, [])
  | some commit_str =>
    if (rustTrim commit_str).data.isEmpty then (fs, [])
    else if !env.checkoutOk then (fs, [.checkoutCall commit_str])
    else
      let issue_dir := "results/" ++ toString record.issue
      let fs₁ := fs.createDirAll issue_dir
      if !env.cacheOk then (fs₁, [.checkoutCall commit_str, .cacheCall])
      else
        let fs₂ := fs₁.write (issue_dir ++ "/commit.txt") (utf8 (commit_str ++ "\n"))
        let p := runAll env issue_dir (buildCmd opts) runIdxs fs₂
        (p.1, .checkoutCall commit_str :: .cacheCall :: p.2)

/-- The batch loop over all parsed records, in order; `envs k` is the
oracle for the `k`-th record.  Each issue's outcome never stops the batch. -/
def processAll (envs : Nat → IssueEnv) : Nat → List IssueRow → FS → FS × List Event
  | _, [], fs => (fs, [])
  | k, r :: rest, fs =>
    let p := processIssue (envs k) r fs
    let q := processAll envs (k + 1) rest p.1
    (q.1, p.2 ++ q.2)

/-- The record-reading loop of `main`: each CSV row deserializes to either
a row or an error; the first error aborts `main` (the `?` operator) before
any processing, otherwise all rows are collected in order. -/
def readRecords : List (Except String IssueRow) → Except String (List IssueRow)
  | [] => .ok []
  | .error e :: _ => .error e
  | .ok r :: rest => (readRecords rest).map (fun l => r :: l)

/-- The whole of `main`: read all records (aborting on the first
deserialization error, before any processing), then process every record in
order. -/
def runBatch (rows : List (Except String IssueRow)) (envs : Nat → IssueEnv)
    (fs : FS) : Except String (FS × List Event) :=
  match readRecords rows with
  | .error e => .error e
  | .ok records => .ok (processAll envs 0 records fs)

/-- Whether the supervisor observed the child's termination through a
successful wait (normal exit or enforced timeout).  In exactly these cases
the drain threads are joined and the captured buffers reach the disk. -/
def waitObserved : SpawnResult → Bool
  | .child _ _ (.exited _) => true
  | .child _ _ .timedOut => true
  | _ => false

theorem append_left_inj (s a b : String) (h : s ++ a = s ++ b) : a = b := by
  cases s; cases a; cases b
  simp [String.ext_iff] at h ⊢
  exact h

theorem ne_append_of_ne (d : String) {a b : String} (h : a ≠ b) :
    d ++ a ≠ d ++ b :=
  fun hc => h (append_left_inj d a b hc)

theorem readFile_write_same (fs : FS) (p : String) (b : Bytes) :
    (fs.write p b).readFile p = some b := by
  simp [FS.write, FS.readFile, lookupFile]

theorem readFile_write_of_ne (fs : FS) (p q : String) (b : Bytes) (h : p ≠ q) :
    (fs.write p b).readFile q = fs.readFile q := by
  simp [FS.write, FS.readFile, lookupFile, h]

theorem readFile_createDirAll (fs : FS) (d q : String) :
    (fs.createDirAll d).readFile q = fs.readFile q := rfl

theorem readFile_write_isSome (fs : FS) (p q : String) (b : Bytes)
    (h : (fs.readFile q).isSome = true) :
    ((fs.write p b).readFile q).isSome = true := by
  by_cases hpq : p = q
  · subst hpq; rw [readFile_write_same]; rfl
  · rw [readFile_write_of_ne fs p q b hpq]; exact h

theorem run_simulation_dirs (sr : SpawnResult) (d : String) (fs : FS) :
    (run_simulation sr d fs).dirs = d :: fs.dirs := by
  cases sr with
  | spawnErr e => rfl
  | child out err w => cases w <;> rfl

theorem run_simulation_readFile_isSome (sr : SpawnResult) (d q : String) (fs : FS)
    (h : (fs.readFile q).isSome = true) :
    ((run_simulation sr d fs).readFile q).isSome = true := by
  cases sr with
  | spawnErr e =>
    simp only [run_simulation]
    exact readFile_write_isSome _ _ _ _ (readFile_write_isSome _ _ _ _ h)
  | child out err w =>
    cases w <;> simp only [run_simulation] <;>
      repeat apply readFile_write_isSome
    all_goals exact h

theorem run_simulation_exit_code (sr : SpawnResult) (d : String) (fs : FS) :
    ((run_simulation sr d fs).readFile (d ++ "/exit_code.txt")).isSome = true := by
  cases sr with
  | spawnErr e => simp only [run_simulation]; rw [readFile_write_same]; rfl
  | child out err w =>
    cases w <;> simp only [run_simulation] <;> rw [readFile_write_same] <;> rfl

theorem run_simulation_stderr (sr : SpawnResult) (d : String) (fs : FS) :
    ((run_simulation sr d fs).readFile (d ++ "/stderr.txt")).isSome = true := by
  cases sr with
  | spawnErr e =>
    simp only [run_simulation]
    rw [readFile_write_of_ne _ _ _ _ (ne_append_of_ne d (by decide)),
      readFile_write_same]
    rfl
  | child out err w =>
    cases w <;> simp only [run_simulation] <;>
      rw [readFile_write_of_ne _ _ _ _ (ne_append_of_ne d (by decide)),
        readFile_write_same] <;> rfl

theorem run_simulation_stdout (sr : SpawnResult) (d : String) (fs : FS)
    (h : waitObserved sr = true) :
    ((run_simulation sr d fs).readFile (d ++ "/stdout.txt")).isSome = true := by
  cases sr with
  | spawnErr e => simp [waitObserved] at h
  | child out err w =>
    cases w with
    | exited code =>
      simp only [run_simulation]
      rw [readFile_write_of_ne _ _ _ _ (ne_append_of_ne d (by decide)),
        readFile_write_of_ne _ _ _ _ (ne_append_of_ne d (by decide)),
        readFile_write_same]
      rfl
    | timedOut =>
      simp only [run_simulation]
      rw [readFile_write_of_ne _ _ _ _ (ne_append_of_ne d (by decide)),
        readFile_write_of_ne _ _ _ _ (ne_append_of_ne d (by decide)),
        readFile_write_same]
      rfl
    | waitErr m => simp [waitObserved] at h

/-- C8: for every supervised run, `exit_code.txt` holds exactly the decimal
exit code on a normal or nonzero exit, the token `-1 timed out` on timeout,
and `-2` on spawn failure, on wait failure, or when the platform reports no
exit code; the explanatory failure text (when there is one) goes to the
stderr artifact, which otherwise holds the drained stderr capture. -/
theorem exit_code_artifact_token (sr : SpawnResult) (output_dir : String) (fs : FS) :
    (run_simulation sr output_dir fs).readFile (output_dir ++ "/exit_code.txt") =
      some (match sr with
        | .spawnErr _ => utf8 "-2"
        | .child _ _ (.exited none) => utf8 "-2"
        | .child _ _ (.exited (some c)) => utf8 (toString c)
        | .child _ _ .timedOut => utf8 "-1 timed out"
        | .child _ _ (.waitErr _) => utf8 "-2") ∧
    (run_simulation sr output_dir fs).readFile (output_dir ++ "/stderr.txt") =
      some (match sr with
        | .spawnErr m => utf8 ("error: " ++ m)
        | .child _ _ (.waitErr m) => utf8 ("error: " ++ m)
        | .child _ e _ => readToStringBytes e) := by
  cases sr with
  | spawnErr m =>
    constructor
    · simp only [run_simulation]; rw [readFile_write_same]
    · simp only [run_simulation]
      rw [readFile_write_of_ne _ _ _ _ (ne_append_of_ne output_dir (by decide)),
        readFile_write_same]
  | child out err w =>
    cases w with
    | exited code =>
      cases code <;> constructor <;> simp only [run_simulation] <;>
        first
        | rw [readFile_write_same]; rfl
        | rw [readFile_write_same]
        | rw [readFile_write_of_ne _ _ _ _ (ne_append_of_ne output_dir (by decide)),
            readFile_write_same]
    | timedOut =>
      constructor <;> simp only [run_simulation] <;>
        first
        | rw [readFile_write_same]
        | rw [readFile_write_of_ne _ _ _ _ (ne_append_of_ne output_dir (by decide)),
            readFile_write_same]
    | waitErr m =>
      constructor <;> simp only [run_simulation] <;>
        first
        | rw [readFile_write_same]
        | rw [readFile_write_of_ne _ _ _ _ (ne_append_of_ne output_dir (by decide)),
            readFile_write_same]

/-- C2 counterexample: a child that exits immediately with code 7 after
writing the single (non-UTF-8) byte `0xFF` to stdout does not get that byte
captured — `stdout.txt` ends up empty, because the harness drains through
`read_to_string` and discards its error — while `exit_code.txt` does read
`7`. -/
theorem non_utf8_stdout_not_captured :
    (run_simulation (.child [0xFF] [] (.exited (some 7))) "results/1/run_1"
        FS.empty).readFile "results/1/run_1/stdout.txt" ≠ some [0xFF] ∧
    (run_simulation (.child [0xFF] [] (.exited (some 7))) "results/1/run_1"
        FS.empty).readFile "results/1/run_1/stdout.txt" = some [] ∧
    (run_simulation (.child [0xFF] [] (.exited (some 7))) "results/1/run_1"
        FS.empty).readFile "results/1/run_1/exit_code.txt" = some (utf8 "7") := by
  decide

/-- C2 (amended): for every child that exits immediately with code 7 and
whose stdout and stderr stream contents are valid UTF-8, the supervisor
writes `exit_code.txt` containing exactly `7`, and `stdout.txt` and
`stderr.txt` are byte-for-byte the bytes the child wrote to each stream. -/
theorem exit7_child_artifacts (out err : Bytes) (output_dir : String) (fs : FS)
    (hout : validUtf8 out = true) (herr : validUtf8 err = true) :
    (run_simulation (.child out err (.exited (some 7))) output_dir fs).readFile
        (output_dir ++ "/exit_code.txt") = some (utf8 "7") ∧
    (run_simulation (.child out err (.exited (some 7))) output_dir fs).readFile
        (output_dir ++ "/stdout.txt") = some out ∧
    (run_simulation (.child out err (.exited (some 7))) output_dir fs).readFile
        (output_dir ++ "/stderr.txt") = some err := by
  refine ⟨?_, ?_, ?_⟩
  · simp only [run_simulation]
    rw [readFile_write_same]
    rfl
  · simp only [run_simulation]
    rw [readFile_write_of_ne _ _ _ _ (ne_append_of_ne output_dir (by decide)),
      readFile_write_of_ne _ _ _ _ (ne_append_of_ne output_dir (by decide)),
      readFile_write_same, readToStringBytes, hout]
    simp
  · simp only [run_simulation]
    rw [readFile_write_of_ne _ _ _ _ (ne_append_of_ne output_dir (by decide)),
      readFile_write_same, readToStringBytes, herr]
    simp

/-- Witness for C2 (amended) at a concrete child: stdout bytes `hi`, empty
stderr, run directory `results/9/run_1`. -/
theorem exit7_child_artifacts_witness :
    validUtf8 [104, 105] = true ∧ validUtf8 [] = true ∧
    ((run_simulation (.child [104, 105] [] (.exited (some 7))) "results/9/run_1"
        FS.empty).readFile ("results/9/run_1" ++ "/exit_code.txt") = some (utf8 "7") ∧
     (run_simulation (.child [104, 105] [] (.exited (some 7))) "results/9/run_1"
        FS.empty).readFile ("results/9/run_1" ++ "/stdout.txt") = some [104, 105] ∧
     (run_simulation (.child [104, 105] [] (.exited (some 7))) "results/9/run_1"
        FS.empty).readFile ("results/9/run_1" ++ "/stderr.txt") = some []) :=
  ⟨by decide, by decide,
    exit7_child_artifacts [104, 105] [] "results/9/run_1" FS.empty
      (by decide) (by decide)⟩

theorem write_dirs (fs : FS) (p : String) (b : Bytes) :
    (fs.write p b).dirs = fs.dirs := rfl

theorem createDirAll_dirs (fs : FS) (d : String) :
    (fs.createDirAll d).dirs = d :: fs.dirs := rfl

theorem processIssue_checkout_failed (env : IssueEnv) (record : IssueRow)
    (fs : FS) (c : String)
    (h1 : resolvedCommit record.commit_ids = some c)
    (h2 : (rustTrim c).data.isEmpty = false)
    (h3 : env.checkoutOk = false) :
    processIssue env record fs = (fs, [Event.checkoutCall c]) := by
  simp [processIssue, h1, h2, h3]

theorem processIssue_cache_failed (env : IssueEnv) (record : IssueRow)
    (fs : FS) (c : String)
    (h1 : resolvedCommit record.commit_ids = some c)
    (h2 : (rustTrim c).data.isEmpty = false)
    (h3 : env.checkoutOk = true) (h4 : env.cacheOk = false) :
    processIssue env record fs =
      (fs.createDirAll ("results/" ++ toString record.issue),
        [Event.checkoutCall c, Event.cacheCall]) := by
  simp [processIssue, h1, h2, h3, h4]

theorem processIssue_success (env : IssueEnv) (record : IssueRow)
    (fs : FS) (c : String)
    (h1 : resolvedCommit record.commit_ids = some c)
    (h2 : (rustTrim c).data.isEmpty = false)
    (h3 : env.checkoutOk = true) (h4 : env.cacheOk = true) :
    processIssue env record fs =
      ((runAll env ("results/" ++ toString record.issue)
          (buildCmd (record.opts.getD "")) runIdxs
          ((fs.createDirAll ("results/" ++ toString record.issue)).write
            ("results/" ++ toString record.issue ++ "/commit.txt")
            (utf8 (c ++ "\n")))).1,
        Event.checkoutCall c :: Event.cacheCall ::
          (runAll env ("results/" ++ toString record.issue)
            (buildCmd (record.opts.getD "")) runIdxs
            ((fs.createDirAll ("results/" ++ toString record.issue)).write
              ("results/" ++ toString record.issue ++ "/commit.txt")
              (utf8 (c ++ "\n")))).2) := by
  simp [processIssue, h1, h2, h3, h4]

theorem runAll_dirs (env : IssueEnv) (d cmd : String) (idxs : List Nat) :
    ∀ fs : FS, ((runAll env d cmd idxs fs).1).dirs =
      (idxs.map (fun i => d ++ "/run_" ++ toString i)).reverse ++ fs.dirs := by
  induction idxs with
  | nil => intro fs; rfl
  | cons j rest ih =>
    intro fs
    simp only [runAll]
    rw [ih, run_simulation_dirs]
    simp [List.append_assoc]

theorem runAll_readFile_isSome (env : IssueEnv) (d cmd q : String)
    (idxs : List Nat) :
    ∀ fs : FS, (fs.readFile q).isSome = true →
      (((runAll env d cmd idxs fs).1).readFile q).isSome = true := by
  induction idxs with
  | nil => intro fs h; exact h
  | cons j rest ih =>
    intro fs h
    simp only [runAll]
    exact ih _ (run_simulation_readFile_isSome _ _ _ _ h)

theorem runAll_artifacts (env : IssueEnv) (d cmd : String) (idxs : List Nat) :
    ∀ (fs : FS) (i : Nat), i ∈ idxs →
      (((runAll env d cmd idxs fs).1).readFile
          (d ++ "/run_" ++ toString i ++ "/exit_code.txt")).isSome = true ∧
      (((runAll env d cmd idxs fs).1).readFile
          (d ++ "/run_" ++ toString i ++ "/stderr.txt")).isSome = true ∧
      (waitObserved (env.runs i) = true →
        (((runAll env d cmd idxs fs).1).readFile
            (d ++ "/run_" ++ toString i ++ "/stdout.txt")).isSome = true) := by
  induction idxs with
  | nil => intro fs i h; cases h
  | cons j rest ih =>
    intro fs i hmem
    rcases List.mem_cons.mp hmem with heq | htail
    · subst heq
      simp only [runAll]
      refine ⟨?_, ?_, fun hw => ?_⟩
      · exact runAll_readFile_isSome _ _ _ _ _ _
          (run_simulation_exit_code (env.runs i) _ fs)
      · exact runAll_readFile_isSome _ _ _ _ _ _
          (run_simulation_stderr (env.runs i) _ fs)
      · exact runAll_readFile_isSome _ _ _ _ _ _
          (run_simulation_stdout (env.runs i) _ fs hw)
    · simp only [runAll]
      exact ih _ i htail

/-- C1 counterexample: the claim fails in two ways.  A run whose spawn
fails gets no `stdout.txt` at all (only `stderr.txt` and `exit_code.txt`
are written), so its run directory does not contain all three artifacts;
and an issue whose checkout succeeds but whose cache reset fails gets zero
run directories, not `RUNS_PER_ISSUE` of them. -/
theorem run_artifacts_counterexample :
    (run_simulation (.spawnErr "boom") "results/1/run_1" FS.empty).readFile
        "results/1/run_1/stdout.txt" = none ∧
    (run_simulation (.spawnErr "boom") "results/1/run_1" FS.empty).readFile
        "results/1/run_1/stderr.txt" = some (utf8 "error: boom") ∧
    (run_simulation (.spawnErr "boom") "results/1/run_1" FS.empty).readFile
        "results/1/run_1/exit_code.txt" = some (utf8 "-2") ∧
    (processIssue ⟨true, false, fun _ => SpawnResult.spawnErr ""⟩
        ⟨1, some "c1", none⟩ FS.empty).1.dirs = ["results/1"] := by
  decide

/-- C1 (amended): for every issue whose revision is present and nonblank
and whose checkout and cache reset both succeed, exactly `RUNS_PER_ISSUE`
run directories numbered 1..N contiguously are created (the directory list
is exactly the run directories over `runIdxs` on top of the issue directory
and the prior state), and each run directory contains `exit_code.txt` and
`stderr.txt` whatever the run's outcome, plus `stdout.txt` whenever the
wait on the child was observed (normal exit or timeout). -/
theorem checked_out_issue_runs (env : IssueEnv) (record : IssueRow) (fs : FS)
    (c : String)
    (h1 : resolvedCommit record.commit_ids = some c)
    (h2 : (rustTrim c).data.isEmpty = false)
    (h3 : env.checkoutOk = true) (h4 : env.cacheOk = true) :
    runIdxs.length = RUNS_PER_ISSUE ∧
    ((processIssue env record fs).1).dirs =
      (runIdxs.map (fun i =>
        "results/" ++ toString record.issue ++ "/run_" ++ toString i)).reverse ++
        ("results/" ++ toString record.issue) :: fs.dirs ∧
    ∀ i ∈ runIdxs,
      (((processIssue env record fs).1).readFile
          ("results/" ++ toString record.issue ++ "/run_" ++ toString i ++
            "/exit_code.txt")).isSome = true ∧
      (((processIssue env record fs).1).readFile
          ("results/" ++ toString record.issue ++ "/run_" ++ toString i ++
            "/stderr.txt")).isSome = true ∧
      (waitObserved (env.runs i) = true →
        (((processIssue env record fs).1).readFile
            ("results/" ++ toString record.issue ++ "/run_" ++ toString i ++
              "/stdout.txt")).isSome = true) := by
  rw [processIssue_success env record fs c h1 h2 h3 h4]
  refine ⟨by decide, ?_, ?_⟩
  · rw [runAll_dirs]
    rfl
  · intro i hi
    dsimp only
    exact runAll_artifacts env _ _ runIdxs _ i hi

/-- Witness for C1 (amended): issue 5, revision `abc`, every run's child
exits normally with code 0, starting from the empty filesystem. -/
theorem checked_out_issue_runs_witness :
    resolvedCommit (some "abc") = some "abc" ∧
    (rustTrim "abc").data.isEmpty = false ∧
    (runIdxs.length = RUNS_PER_ISSUE ∧
     ((processIssue ⟨true, true, fun _ => SpawnResult.child [] [] (.exited (some 0))⟩
         ⟨5, some "abc", none⟩ FS.empty).1).dirs =
       (runIdxs.map (fun i =>
         "results/" ++ toString (5 : Nat) ++ "/run_" ++ toString i)).reverse ++
         ("results/" ++ toString (5 : Nat)) :: ([] : List String) ∧
     ∀ i ∈ runIdxs,
       (((processIssue ⟨true, true, fun _ => SpawnResult.child [] [] (.exited (some 0))⟩
           ⟨5, some "abc", none⟩ FS.empty).1).readFile
           ("results/" ++ toString (5 : Nat) ++ "/run_" ++ toString i ++
             "/exit_code.txt")).isSome = true ∧
       (((processIssue ⟨true, true, fun _ => SpawnResult.child [] [] (.exited (some 0))⟩
           ⟨5, some "abc", none⟩ FS.empty).1).readFile
           ("results/" ++ toString (5 : Nat) ++ "/run_" ++ toString i ++
             "/stderr.txt")).isSome = true ∧
       (waitObserved (SpawnResult.child [] [] (.exited (some 0))) = true →
         (((processIssue ⟨true, true, fun _ => SpawnResult.child [] [] (.exited (some 0))⟩
             ⟨5, some "abc", none⟩ FS.empty).1).readFile
             ("results/" ++ toString (5 : Nat) ++ "/run_" ++ toString i ++
               "/stdout.txt")).isSome = true)) :=
  ⟨by decide, by decide,
    checked_out_issue_runs
      ⟨true, true, fun _ => SpawnResult.child [] [] (.exited (some 0))⟩
      ⟨5, some "abc", none⟩ FS.empty "abc" (by decide) (by decide) rfl rfl⟩

/-- C3 counterexample: issue 3 passes the revision check and checkout, the
cache reset is invoked and fails — and `commit.txt` does not exist in the
issue directory (which does exist), contradicting the claim that it is
persisted before the cache-reset call. -/
theorem cache_failure_commit_txt_missing :
    (processIssue ⟨true, false, fun _ => SpawnResult.spawnErr ""⟩
        ⟨3, some "deadbeef", none⟩ FS.empty).1.readFile
      "results/3/commit.txt" = none ∧
    "results/3" ∈ (processIssue ⟨true, false, fun _ => SpawnResult.spawnErr ""⟩
        ⟨3, some "deadbeef", none⟩ FS.empty).1.dirs ∧
    Event.cacheCall ∈ (processIssue ⟨true, false, fun _ => SpawnResult.spawnErr ""⟩
        ⟨3, some "deadbeef", none⟩ FS.empty).2 := by
  decide

/-- C3 (amended): for every issue record that passes the revision check and
whose checkout succeeds, the pipeline creates `results/<issue_id>/` before
invoking the cache-reset collaborator, but persists the revision into
`commit.txt` only after the cache reset succeeds; hence when the cache
reset fails, the final state is exactly the prior one plus the issue
directory — no file is written, so `commit.txt` is still absent whenever it
was absent before. -/
theorem issue_dir_before_cache_reset (env : IssueEnv) (record : IssueRow)
    (fs : FS) (c : String)
    (h1 : resolvedCommit record.commit_ids = some c)
    (h2 : (rustTrim c).data.isEmpty = false)
    (h3 : env.checkoutOk = true) (h4 : env.cacheOk = false) :
    processIssue env record fs =
      (fs.createDirAll ("results/" ++ toString record.issue),
        [Event.checkoutCall c, Event.cacheCall]) ∧
    (processIssue env record fs).1.files = fs.files ∧
    (fs.readFile ("results/" ++ toString record.issue ++ "/commit.txt") = none →
      (processIssue env record fs).1.readFile
        ("results/" ++ toString record.issue ++ "/commit.txt") = none) := by
  have h := processIssue_cache_failed env record fs c h1 h2 h3 h4
  refine ⟨h, ?_, fun hn => ?_⟩ <;> rw [h]
  · rfl
  · exact hn

/-- Witness for C3 (amended): issue 4, revision `beef`, failing cache
reset, empty prior filesystem. -/
theorem issue_dir_before_cache_reset_witness :
    resolvedCommit (some "beef") = some "beef" ∧
    (rustTrim "beef").data.isEmpty = false ∧
    (processIssue ⟨true, false, fun _ => SpawnResult.spawnErr ""⟩
        ⟨4, some "beef", none⟩ FS.empty =
      (FS.empty.createDirAll ("results/" ++ toString (4 : Nat)),
        [Event.checkoutCall "beef", Event.cacheCall]) ∧
     (processIssue ⟨true, false, fun _ => SpawnResult.spawnErr ""⟩
        ⟨4, some "beef", none⟩ FS.empty).1.files = FS.empty.files ∧
     (FS.empty.readFile ("results/" ++ toString (4 : Nat) ++ "/commit.txt") = none →
       (processIssue ⟨true, false, fun _ => SpawnResult.spawnErr ""⟩
          ⟨4, some "beef", none⟩ FS.empty).1.readFile
         ("results/" ++ toString (4 : Nat) ++ "/commit.txt") = none)) :=
  ⟨by decide, by decide,
    issue_dir_before_cache_reset ⟨true, false, fun _ => SpawnResult.spawnErr ""⟩
      ⟨4, some "beef", none⟩ FS.empty "beef" (by decide) (by decide) rfl rfl⟩

/-- C4 counterexample: for `Commit IDs` fields delimited by a bare comma or
a bare space, the revision used is the whole string, not the first token
the claim promises: `a,b` resolves to `a,b` and `a b` resolves to `a b`,
neither to `a`. -/
theorem bare_delimiters_not_split :
    resolvedCommit (some "a,b") = some "a,b" ∧
    resolvedCommit (some "a,b") ≠ some "a" ∧
    resolvedCommit (some "a b") = some "a b" ∧
    resolvedCommit (some "a b") ≠ some "a" := by
  decide

/-- C4 (amended): the revision used for checkout is the first token of the
`Commit IDs` field split on the two-character comma-space delimiter; a bare
comma or a bare space alone does not delimit, so `a, b` and `abc, def, ghi`
yield their first token while `a,b` and `a b` are used whole.  The last
conjunct exhibits the resolved token as the revision actually passed to the
checkout collaborator. -/
theorem first_token_of_comma_space_list :
    resolvedCommit (some "a, b") = some "a" ∧
    resolvedCommit (some "abc, def, ghi") = some "abc" ∧
    resolvedCommit (some "a,b") = some "a,b" ∧
    resolvedCommit (some "a b") = some "a b" ∧
    (processIssue ⟨false, false, fun _ => SpawnResult.spawnErr ""⟩
        ⟨1, some "a, b", none⟩ FS.empty).2 = [Event.checkoutCall "a"] := by
  decide

/-- C6: for every issue whose revision is present and nonblank but whose
checkout collaborator call fails, the filesystem is completely unchanged
(no `results/<issue_id>/` directory, no files), the only external action is
the failed checkout call (no cache reset, no runs), and the batch continues
with the remaining records from the same state. -/
theorem checkout_failure_skips_issue (envs : Nat → IssueEnv) (k : Nat)
    (record : IssueRow) (rest : List IssueRow) (fs : FS) (c : String)
    (h1 : resolvedCommit record.commit_ids = some c)
    (h2 : (rustTrim c).data.isEmpty = false)
    (h3 : (envs k).checkoutOk = false) :
    processIssue (envs k) record fs = (fs, [Event.checkoutCall c]) ∧
    processAll envs k (record :: rest) fs =
      ((processAll envs (k + 1) rest fs).1,
        Event.checkoutCall c :: (processAll envs (k + 1) rest fs).2) := by
  have h := processIssue_checkout_failed (envs k) record fs c h1 h2 h3
  refine ⟨h, ?_⟩
  simp [processAll, h]

/-- Witness for C6: issue 2, revision `feedc0de`, checkout fails, no
further records. -/
theorem checkout_failure_skips_issue_witness :
    resolvedCommit (some "feedc0de") = some "feedc0de" ∧
    (rustTrim "feedc0de").data.isEmpty = false ∧
    (processIssue ⟨false, true, fun _ => SpawnResult.spawnErr ""⟩
        ⟨2, some "feedc0de", none⟩ FS.empty =
      (FS.empty, [Event.checkoutCall "feedc0de"]) ∧
     processAll (fun _ => ⟨false, true, fun _ => SpawnResult.spawnErr ""⟩) 0
        [⟨2, some "feedc0de", none⟩] FS.empty =
      ((processAll (fun _ => ⟨false, true, fun _ => SpawnResult.spawnErr ""⟩) 1
          [] FS.empty).1,
        Event.checkoutCall "feedc0de" ::
          (processAll (fun _ => ⟨false, true, fun _ => SpawnResult.spawnErr ""⟩) 1
            [] FS.empty).2)) :=
  ⟨by decide, by decide,
    checkout_failure_skips_issue
      (fun _ => ⟨false, true, fun _ => SpawnResult.spawnErr ""⟩) 0
      ⟨2, some "feedc0de", none⟩ [] FS.empty "feedc0de"
      (by decide) (by decide) rfl⟩

/-- C7: for every issue record whose resolved revision is absent or blank
(trims to empty, including whitespace-only), the issue is skipped entirely:
the filesystem is unchanged (no directory, no artifact) and the event trace
is empty (no checkout call, no cache-reset call, no runs). -/
theorem blank_revision_skipped (env : IssueEnv) (record : IssueRow) (fs : FS)
    (h : resolvedCommit record.commit_ids = none ∨
      ∃ c, resolvedCommit record.commit_ids = some c ∧
        (rustTrim c).data.isEmpty = true) :
    processIssue env record fs = (fs, []) := by
  rcases h with hn | ⟨c, hc, hb⟩
  · simp [processIssue, hn]
  · simp [processIssue, hc, hb]

/-- Witness for C7: a record whose `Commit IDs` field is whitespace-only. -/
theorem blank_revision_skipped_witness :
    (resolvedCommit (some "   ") = none ∨
      ∃ c, resolvedCommit (some "   ") = some c ∧
        (rustTrim c).data.isEmpty = true) ∧
    processIssue ⟨true, true, fun _ => SpawnResult.spawnErr ""⟩
        ⟨7, some "   ", some "-x"⟩ FS.empty = (FS.empty, []) :=
  ⟨Or.inr ⟨"   ", by decide, by decide⟩,
    blank_revision_skipped ⟨true, true, fun _ => SpawnResult.spawnErr ""⟩
      ⟨7, some "   ", some "-x"⟩ FS.empty
      (Or.inr ⟨"   ", by decide, by decide⟩)⟩

theorem readRecords_error_of_mem :
    ∀ rows : List (Except String IssueRow), (∃ e, Except.error e ∈ rows) →
      ∃ msg, readRecords rows = Except.error msg := by
  intro rows
  induction rows with
  | nil => rintro ⟨e, he⟩; cases he
  | cons r rest ih =>
    rintro ⟨e, he⟩
    rcases List.mem_cons.mp he with heq | htail
    · rw [← heq]
      exact ⟨e, rfl⟩
    · cases r with
      | error e₂ => exact ⟨e₂, rfl⟩
      | ok row =>
        obtain ⟨m, hm⟩ := ih ⟨e, htail⟩
        exact ⟨m, by simp [readRecords, hm, Except.map]⟩

/-- C9: if any row of the issue table fails to deserialize, the whole batch
aborts with that error before any processing: `runBatch` returns an error
and produces no filesystem change and no event, even when well-formed
records precede the malformed row. -/
theorem input_error_aborts_batch (rows : List (Except String IssueRow))
    (envs : Nat → IssueEnv) (fs : FS)
    (h : ∃ e, Except.error e ∈ rows) :
    ∃ msg, runBatch rows envs fs = Except.error msg := by
  obtain ⟨m, hm⟩ := readRecords_error_of_mem rows h
  exact ⟨m, by simp [runBatch, hm]⟩

/-- Witness for C9: a well-formed record followed by a malformed row. -/
theorem input_error_aborts_batch_witness :
    (∃ e, Except.error e ∈
      ([Except.ok ⟨1, some "abc", none⟩,
        Except.error "malformed row"] : List (Except String IssueRow))) ∧
    ∃ msg, runBatch
        [Except.ok ⟨1, some "abc", none⟩, Except.error "malformed row"]
        (fun _ => ⟨true, true, fun _ => SpawnResult.spawnErr ""⟩) FS.empty =
      Except.error msg :=
  ⟨⟨"malformed row", by simp⟩,
    input_error_aborts_batch
      [Except.ok ⟨1, some "abc", none⟩, Except.error "malformed row"]
      (fun _ => ⟨true, true, fun _ => SpawnResult.spawnErr ""⟩) FS.empty
      ⟨"malformed row", by simp⟩⟩

/-- C10: a record whose `Opts` field is absent is processed exactly as if
the options string were empty — the whole per-issue behavior (filesystem
and events, so in particular neither skipping nor failing) coincides — and
the run command built for it is the fixed workload template with nothing
after its trailing separator. -/
theorem absent_opts_is_empty_opts (env : IssueEnv) (record : IssueRow) (fs : FS) :
    processIssue env { record with opts := none } fs =
      processIssue env { record with opts := some "" } fs ∧
    buildCmd ((none : Option String).getD "") =
      "RUST_LOG=limbo_sim=debug cargo run --bin limbo_sim -- " := by
  constructor
  · rfl
  · decide

end Experimentation
